import Mathlib

/-!
Verification of the rotation/cycle resolver of `devmeetingbot` (`src/main.py`).

The resolver owns two fixed five-month tables (`TOUR_1`, `TOUR_2`), a
persisted store of random assignments (`random_tours`), and
planning-view generation.  Python dicts become association lists,
`random.choice(PARTICIPANTS)` becomes an explicit draw index handed in
as an oracle, and the in-memory / on-disk copies of the persisted data
are modelled by a two-field `Store` whose `disk` field is overwritten
by `save_data` (the `json.dump` call in the source).
-/

namespace DevMeetingBot

/-- `PARTICIPANTS = ["Loic", "Harrison", "Marc", "Tanguy", "Ifeyi"]` (main.py line 20). -/
def PARTICIPANTS : List String := ["Loic", "Harrison", "Marc", "Tanguy", "Ifeyi"]

/-- `MOIS_FR` month-name dictionary (main.py lines 23-26), as an association list. -/
def MOIS_FR : List (Nat × String) :=
  [(1, "janvier"), (2, "février"), (3, "mars"), (4, "avril"), (5, "mai"), (6, "juin"),
   (7, "juillet"), (8, "août"), (9, "septembre"), (10, "octobre"), (11, "novembre"),
   (12, "décembre")]

/-- `TOUR_1 = {11: "Tanguy", 12: "Harrison", 1: "Marc", 2: "Loic", 3: "Ifeyi"}` (line 29). -/
def TOUR_1 : List (Nat × String) :=
  [(11, "Tanguy"), (12, "Harrison"), (1, "Marc"), (2, "Loic"), (3, "Ifeyi")]

/-- `TOUR_2 = {4: "Ifeyi", 5: "Loic", 6: "Marc", 7: "Harrison", 8: "Tanguy"}` (line 30). -/
def TOUR_2 : List (Nat × String) :=
  [(4, "Ifeyi"), (5, "Loic"), (6, "Marc"), (7, "Harrison"), (8, "Tanguy")]

/-- Python dict lookup `d.get(k)` / `d[k]` on an association list. -/
def dictLookup {α β : Type} [DecidableEq α] (d : List (α × β)) (k : α) : Option β :=
  match d with
  | [] => none
  | (k2, v) :: rest => if k2 = k then some v else dictLookup rest k

/-- The persisted data shape `{"history": {}, "random_tours": {}, "cycle_count": 0}`
(main.py line 42). -/
structure Data where
  history : List (String × String)
  random_tours : List (String × String)
  cycle_count : Nat
deriving Repr, DecidableEq

/-- The default empty structure returned by `load_data` when no file exists (line 42)
and installed by `reset` (line 122). -/
def emptyData : Data := { history := [], random_tours := [], cycle_count := 0 }

/-- The manager's state: the in-memory `self.data` plus the durable copy on disk. -/
structure Store where
  mem : Data
  disk : Data
deriving Repr, DecidableEq

/-- A fresh manager whose data file does not exist yet: `load_data` returns the
empty structure (main.py lines 38-42). -/
def initStore : Store := { mem := emptyData, disk := emptyData }

/-- `save_data` (main.py lines 44-46): write the in-memory data to the file. -/
def save_data (s : Store) : Store := { s with disk := s.mem }

/-- The lookup key `f"{year}-{month}"` built in `get_speaker_for_month` (line 74). -/
def mkKey (year month : Nat) : String := toString year ++ "-" ++ toString month

/-- The value of `random.choice(PARTICIPANTS)` (line 76) when the random source
yields index `draw`: an element of `PARTICIPANTS` chosen by the oracle. -/
def randomChoice (draw : Nat) : String :=
  PARTICIPANTS.getD (draw % PARTICIPANTS.length) ""

/-- `MeetingManager.get_speaker_for_month` (main.py lines 66-78).
`year` is the ambient `datetime.now().year` (line 73) and `draw` the random
oracle consumed by `random.choice` on a cache miss.  Returns the speaker name
and the post-call state. -/
def get_speaker_for_month (s : Store) (month year draw : Nat) : String × Store :=
  match dictLookup TOUR_1 month with
  | some v => (v, s)
  | none =>
    match dictLookup TOUR_2 month with
    | some v => (v, s)
    | none =>
      let key := mkKey year month
      match dictLookup s.mem.random_tours key with
      | some v => (v, s)
      | none =>
        let v := randomChoice draw
        let mem2 : Data := { s.mem with random_tours := s.mem.random_tours ++ [(key, v)] }
        (v, save_data { s with mem := mem2 })

/-- `next_month = current_month + 1 if current_month < 12 else 1`
(main.py line 115, also lines 87 and 160). -/
def next_month (current_month : Nat) : Nat :=
  if current_month < 12 then current_month + 1 else 1

/-- One line of the planning view (main.py line 116): month name, speaker, and
the `" ← PROCHAIN"` marker string (empty when the month is not next). -/
structure PlanEntry where
  mois_name : String
  speaker : String
  marker : String
deriving Repr, DecidableEq

/-- One iteration of the `for m in months` loop of `get_planning`
(main.py lines 109-116): resolve the month's speaker (table lookup with the
`"?"` fallback, or `get_speaker_for_month`), build the planning line with the
next-month marker, and thread the state. -/
def planning_step (tour_dict : Option (List (Nat × String))) (current_month year : Nat)
    (draws : Nat → Nat) (acc : List PlanEntry × Store) (m : Nat) : List PlanEntry × Store :=
  let (planning, st) := acc
  let (speaker, st2) :=
    match tour_dict with
    | some d => ((dictLookup d m).getD "?", st)
    | none => get_speaker_for_month st m year (draws m)
  let mois_name := (dictLookup MOIS_FR m).getD "?"
  let marker := if m = next_month current_month then " ← PROCHAIN" else ""
  (planning ++ [⟨mois_name, speaker, marker⟩], st2)

/-- `MeetingManager.get_planning` (main.py lines 90-118).  `current_month` is the
ambient `datetime.now(TIMEZONE).month`, `year` the ambient `datetime.now().year`
used by `get_speaker_for_month`, and `draws` the random oracle per month.
Returns the cycle name, the planning lines, and the post-call state. -/
def get_planning (s : Store) (current_month year : Nat) (draws : Nat → Nat) :
    String × List PlanEntry × Store :=
  let (months, tour_dict, cycle_name) :=
    if current_month ≥ 11 ∨ current_month ≤ 3 then
      (([11, 12, 1, 2, 3] : List Nat), some TOUR_1, "ordre normal")
    else if current_month ≤ 8 then
      (([4, 5, 6, 7, 8] : List Nat), some TOUR_2, "ordre inversé")
    else
      (([9, 10, 11, 12, 1] : List Nat), none, "ordre normal (aléatoire jusqu'à nov)")
  let res := months.foldl (planning_step tour_dict current_month year draws) ([], s)
  (cycle_name, res.1, res.2)

/-- `MeetingManager.reset` (main.py lines 120-123): install the empty structure
and save it. -/
def reset (_s : Store) : Store :=
  save_data { mem := emptyData, disk := (_s).disk }

/-- A persisted state whose `random_tours` already maps `"2025-9"` to `"Marc"`,
the scenario of the spec's idempotence example. -/
def marcStore : Store :=
  { mem := { history := [], random_tours := [("2025-9", "Marc")], cycle_count := 0 },
    disk := { history := [], random_tours := [("2025-9", "Marc")], cycle_count := 0 } }

/-- The months 1..12. -/
def monthsOfYear : List Nat := (List.range 12).map (· + 1)

/-- The months of the year that some fixed table covers. -/
def fixedCovered : List Nat :=
  monthsOfYear.filter (fun m => (dictLookup TOUR_1 m).isSome || (dictLookup TOUR_2 m).isSome)

/-- The months of the year that no fixed table covers. -/
def fixedUncovered : List Nat :=
  monthsOfYear.filter (fun m => !((dictLookup TOUR_1 m).isSome || (dictLookup TOUR_2 m).isSome))

/-- Every value stored in `random_tours` is one of the five participants. -/
def validData (d : Data) : Prop := ∀ kv ∈ d.random_tours, kv.2 ∈ PARTICIPANTS

/-- The participant invariant for both the in-memory and the on-disk copy. -/
def validStore (s : Store) : Prop := validData s.mem ∧ validData s.disk

/-- Appending a fresh binding makes it visible when the key was absent. -/
theorem dictLookup_append_self {β : Type} (l : List (String × β)) (k : String) (v : β)
    (h : dictLookup l k = none) : dictLookup (l ++ [(k, v)]) k = some v := by
  induction l with
  | nil => simp [dictLookup]
  | cons hd tl ih =>
    obtain ⟨k2, v2⟩ := hd
    by_cases hk : k2 = k
    · simp [dictLookup, hk] at h
    · simp only [dictLookup, hk, if_false, List.cons_append] at h ⊢
      exact ih h

/-- Appending a binding for one key does not change lookups of other keys. -/
theorem dictLookup_append_other {β : Type} (l : List (String × β)) (k k2 : String) (v : β)
    (h : k2 ≠ k) : dictLookup (l ++ [(k, v)]) k2 = dictLookup l k2 := by
  induction l with
  | nil => simp [dictLookup]; exact fun hh => h hh.symm
  | cons hd tl ih =>
    obtain ⟨k3, v3⟩ := hd
    by_cases hk : k3 = k2
    · simp [dictLookup, hk]
    · simp only [dictLookup, hk, if_false, List.cons_append]
      exact ih

/-- The modelled `random.choice(PARTICIPANTS)` always yields a participant. -/
theorem randomChoice_mem (draw : Nat) : randomChoice draw ∈ PARTICIPANTS := by
  have h5 : draw % PARTICIPANTS.length < 5 := Nat.mod_lt _ (by decide)
  have h : draw % PARTICIPANTS.length = 0 ∨ draw % PARTICIPANTS.length = 1 ∨
      draw % PARTICIPANTS.length = 2 ∨ draw % PARTICIPANTS.length = 3 ∨
      draw % PARTICIPANTS.length = 4 := by omega
  unfold randomChoice
  rcases h with h | h | h | h | h <;> rw [h] <;> decide

/-- A second call with the same month and year (month in no fixed table) returns
the first call's name and leaves the first call's post-state unchanged. -/
theorem gsm_second_call (s : Store) (m year d1 d2 : Nat)
    (h1 : dictLookup TOUR_1 m = none) (h2 : dictLookup TOUR_2 m = none) :
    get_speaker_for_month (get_speaker_for_month s m year d1).2 m year d2
      = ((get_speaker_for_month s m year d1).1, (get_speaker_for_month s m year d1).2) := by
  cases h : dictLookup s.mem.random_tours (mkKey year m) with
  | some v => simp [get_speaker_for_month, h1, h2, h]
  | none =>
    simp [get_speaker_for_month, h1, h2, h, save_data,
      dictLookup_append_self s.mem.random_tours (mkKey year m) (randomChoice d1) h]

/-- C1: for every month present in fixed table 1 (11,12,1,2,3) or fixed table 2
(4,5,6,7,8), and for every year, random draw and prior persisted state,
`get_speaker_for_month` returns exactly the static value the tables (table 1
checked first) map that month to, and returns the persisted state unchanged. -/
theorem c1_fixed_tables_static (s : Store) (year draw m : Nat)
    (h : (dictLookup TOUR_1 m).isSome ∨ (dictLookup TOUR_2 m).isSome) :
    get_speaker_for_month s m year draw =
      (((dictLookup TOUR_1 m).orElse (fun _ => dictLookup TOUR_2 m)).getD "", s) := by
  cases h1 : dictLookup TOUR_1 m with
  | some v => simp [get_speaker_for_month, h1, Option.orElse]
  | none =>
    rcases h with h | h
    · rw [h1] at h; simp at h
    · obtain ⟨v, h2⟩ := Option.isSome_iff_exists.mp h
      simp [get_speaker_for_month, h1, h2, Option.orElse]

/-- Witness for C1 at month 11 with a non-empty prior state. -/
theorem c1_fixed_tables_static_witness :
    ((dictLookup TOUR_1 11).isSome ∨ (dictLookup TOUR_2 11).isSome) ∧
    get_speaker_for_month marcStore 11 2025 0 =
      (((dictLookup TOUR_1 11).orElse (fun _ => dictLookup TOUR_2 11)).getD "", marcStore) :=
  ⟨Or.inl (by decide), c1_fixed_tables_static marcStore 2025 0 11 (Or.inl (by decide))⟩

/-- C2: for a month outside both fixed tables (9 or 10) and any year, calling
`get_speaker_for_month` twice with the same month and year returns the identical
name both times and the second call leaves the first call's post-state
unchanged; moreover, if the persisted state already maps "2025-9" to "Marc",
the call for September 2025 returns "Marc" with the state untouched. -/
theorem c2_random_idempotent (s : Store) (year d1 d2 m : Nat) (hm : m = 9 ∨ m = 10) :
    (get_speaker_for_month (get_speaker_for_month s m year d1).2 m year d2
        = ((get_speaker_for_month s m year d1).1, (get_speaker_for_month s m year d1).2)) ∧
    (dictLookup s.mem.random_tours "2025-9" = some "Marc" →
      get_speaker_for_month s 9 2025 d1 = ("Marc", s)) := by
  refine ⟨?_, ?_⟩
  · rcases hm with hm | hm <;> subst hm
    · exact gsm_second_call s 9 year d1 d2 (by decide) (by decide)
    · exact gsm_second_call s 10 year d1 d2 (by decide) (by decide)
  · intro h
    have h9 : dictLookup s.mem.random_tours (mkKey 2025 9) = some "Marc" := h
    simp [get_speaker_for_month, h9, show dictLookup TOUR_1 9 = none from rfl,
      show dictLookup TOUR_2 9 = none from rfl]

/-- Witness for C2 at month 9, year 2025, on the state mapping "2025-9" to "Marc". -/
theorem c2_random_idempotent_witness :
    get_speaker_for_month marcStore 9 2025 3 = ("Marc", marcStore) :=
  (c2_random_idempotent marcStore 2025 3 4 9 (Or.inl rfl)).2 rfl

/-- C3 counterexample: with months 0 and 13 (outside [1,12]), `get_speaker_for_month`
does not fail: starting from the empty persisted state with draw index 0 it returns
the participant "Loic" and mutates the persisted state, adding the meaningless keys
"2025-0" and "2025-13" respectively. -/
theorem c3_invalid_month_counterexample :
    (get_speaker_for_month initStore 0 2025 0).1 = "Loic" ∧
    (get_speaker_for_month initStore 0 2025 0).2.mem.random_tours = [("2025-0", "Loic")] ∧
    (get_speaker_for_month initStore 13 2025 0).1 = "Loic" ∧
    (get_speaker_for_month initStore 13 2025 0).2.mem.random_tours = [("2025-13", "Loic")] :=
  ⟨rfl, rfl, rfl, rfl⟩

/-- C3 amended: for a month outside [1,12] (in particular 0 and 13) and any year,
`get_speaker_for_month` performs no validation: it falls through to the random
path, and when the key "{year}-{month}" is absent it draws a participant,
appends that key to `random_tours` (mutating the persisted state) and returns
the drawn name. -/
theorem c3_no_validation_amended (s : Store) (year draw m : Nat)
    (hm : m = 0 ∨ m = 13)
    (habs : dictLookup s.mem.random_tours (mkKey year m) = none) :
    (get_speaker_for_month s m year draw).1 = randomChoice draw ∧
    (get_speaker_for_month s m year draw).2.mem.random_tours
      = s.mem.random_tours ++ [(mkKey year m, randomChoice draw)] := by
  rcases hm with hm | hm <;> subst hm <;>
    simp [get_speaker_for_month, habs, save_data,
      show dictLookup TOUR_1 0 = none from rfl, show dictLookup TOUR_2 0 = none from rfl,
      show dictLookup TOUR_1 13 = none from rfl, show dictLookup TOUR_2 13 = none from rfl]

/-- Witness for the amended C3 at month 0, year 2026, draw 7, empty prior state. -/
theorem c3_no_validation_amended_witness :
    (get_speaker_for_month initStore 0 2026 7).1 = randomChoice 7 ∧
    (get_speaker_for_month initStore 0 2026 7).2.mem.random_tours
      = initStore.mem.random_tours ++ [(mkKey 2026 0, randomChoice 7)] :=
  c3_no_validation_amended initStore 2026 7 0 (Or.inl rfl) rfl

/-- C4 counterexample: the two fixed tables do not cover 8 of the 12 months
leaving 4 uncovered — they cover 10, leaving 2. -/
theorem c4_coverage_counterexample :
    ¬ (fixedCovered.length = 8 ∧ fixedUncovered.length = 4) := by decide

/-- C4 amended: the two fixed tables are disjoint (no month appears in both),
each maps exactly 5 distinct months, and together they cover exactly 10 of the
12 months, leaving 2 months (September and October) without a fixed entry. -/
theorem c4_tables_amended :
    (∀ m ∈ TOUR_1.map Prod.fst, m ∉ TOUR_2.map Prod.fst) ∧
    (TOUR_1.map Prod.fst).Nodup ∧ TOUR_1.length = 5 ∧
    (TOUR_2.map Prod.fst).Nodup ∧ TOUR_2.length = 5 ∧
    fixedCovered.length = 10 ∧ fixedUncovered = [9, 10] := by decide

/-- The fresh-draw branch of `get_speaker_for_month`: when the month is in no
fixed table and the key is absent, the drawn name is appended and saved. -/
theorem gsm_random_fresh (s : Store) (m year draw : Nat)
    (h1 : dictLookup TOUR_1 m = none) (h2 : dictLookup TOUR_2 m = none)
    (habs : dictLookup s.mem.random_tours (mkKey year m) = none) :
    get_speaker_for_month s m year draw
      = (randomChoice draw,
         { mem := { s.mem with
              random_tours := s.mem.random_tours ++ [(mkKey year m, randomChoice draw)] },
           disk := { s.mem with
              random_tours := s.mem.random_tours ++ [(mkKey year m, randomChoice draw)] } }) := by
  simp [get_speaker_for_month, h1, h2, habs, save_data]

/-- C5: `get_planning` for current month 9 returns the label
"ordre normal (aléatoire jusqu'à nov)" and the 5-entry window for months
[9, 10, 11, 12, 1], where September's and October's speakers are resolved via
`get_speaker_for_month` (the random path, threading the state) and November,
December and January resolve to their fixed table 1 values; if September's or
October's key is absent beforehand, the freshly drawn name is persisted. -/
theorem c5_planning_september (s : Store) (year : Nat) (draws : Nat → Nat) :
    (get_planning s 9 year draws =
      ("ordre normal (aléatoire jusqu'à nov)",
       [⟨"septembre", (get_speaker_for_month s 9 year (draws 9)).1, ""⟩,
        ⟨"octobre", (get_speaker_for_month (get_speaker_for_month s 9 year (draws 9)).2 10 year
            (draws 10)).1, " ← PROCHAIN"⟩,
        ⟨"novembre", "Tanguy", ""⟩, ⟨"décembre", "Harrison", ""⟩, ⟨"janvier", "Marc", ""⟩],
       (get_speaker_for_month (get_speaker_for_month s 9 year (draws 9)).2 10 year
          (draws 10)).2)) ∧
    (dictLookup s.mem.random_tours (mkKey year 9) = none →
      dictLookup (get_speaker_for_month s 9 year (draws 9)).2.mem.random_tours (mkKey year 9)
        = some (get_speaker_for_month s 9 year (draws 9)).1) ∧
    (dictLookup (get_speaker_for_month s 9 year (draws 9)).2.mem.random_tours (mkKey year 10)
        = none →
      dictLookup (get_speaker_for_month (get_speaker_for_month s 9 year (draws 9)).2 10 year
          (draws 10)).2.mem.random_tours (mkKey year 10)
        = some (get_speaker_for_month (get_speaker_for_month s 9 year (draws 9)).2 10 year
          (draws 10)).1) := by
  refine ⟨rfl, ?_, ?_⟩
  · intro habs
    rw [gsm_random_fresh s 9 year (draws 9) rfl rfl habs]
    exact dictLookup_append_self _ _ _ habs
  · intro habs
    rw [gsm_random_fresh ((get_speaker_for_month s 9 year (draws 9)).2) 10 year
      (draws 10) rfl rfl habs]
    exact dictLookup_append_self _ _ _ habs

/-- C6: `get_planning` for current month 11 returns the label "ordre normal"
and the 5-entry sequence for [novembre, décembre, janvier, février, mars] whose
speakers exactly match fixed table 1, with the December entry (and only it)
carrying the next-month marker, and the persisted state is unchanged. -/
theorem c6_planning_november (s : Store) (year : Nat) (draws : Nat → Nat) :
    get_planning s 11 year draws =
      ("ordre normal",
       [⟨"novembre", "Tanguy", ""⟩, ⟨"décembre", "Harrison", " ← PROCHAIN"⟩,
        ⟨"janvier", "Marc", ""⟩, ⟨"février", "Loic", ""⟩, ⟨"mars", "Ifeyi", ""⟩],
       s) := rfl

/-- C7: resolving a random month (9 or 10) whose key "{year}-{month}" is absent
appends exactly that one key (bound to the returned name) to `random_tours` and
changes nothing else: `history`, `cycle_count` and every other `random_tours`
key are unchanged; and the keys for the same month in two different years
("2025-9" and "2026-9") are distinct, so such entries are independently
persisted. -/
theorem c7_fresh_draw_frame (s : Store) (year draw m : Nat) (hm : m = 9 ∨ m = 10)
    (habs : dictLookup s.mem.random_tours (mkKey year m) = none) :
    (get_speaker_for_month s m year draw).2.mem.random_tours
        = s.mem.random_tours ++ [(mkKey year m, (get_speaker_for_month s m year draw).1)] ∧
    (get_speaker_for_month s m year draw).2.mem.history = s.mem.history ∧
    (get_speaker_for_month s m year draw).2.mem.cycle_count = s.mem.cycle_count ∧
    (∀ k, k ≠ mkKey year m →
       dictLookup (get_speaker_for_month s m year draw).2.mem.random_tours k
         = dictLookup s.mem.random_tours k) ∧
    mkKey 2025 9 ≠ mkKey 2026 9 := by
  rcases hm with hm | hm <;> subst hm
  · rw [gsm_random_fresh s 9 year draw rfl rfl habs]
    exact ⟨rfl, rfl, rfl, fun k hk => dictLookup_append_other _ _ _ _ hk, by decide⟩
  · rw [gsm_random_fresh s 10 year draw rfl rfl habs]
    exact ⟨rfl, rfl, rfl, fun k hk => dictLookup_append_other _ _ _ _ hk, by decide⟩

/-- Witness for C7: a fresh September 2025 resolution on the empty state. -/
theorem c7_fresh_draw_frame_witness :
    (get_speaker_for_month initStore 9 2025 2).2.mem.random_tours
      = initStore.mem.random_tours
          ++ [(mkKey 2025 9, (get_speaker_for_month initStore 9 2025 2).1)] :=
  (c7_fresh_draw_frame initStore 2025 2 9 (Or.inl rfl) rfl).1

/-- C8: `reset` sets the state to exactly the empty structure and writes it to
durable storage (both the in-memory and the disk copy become the empty
structure); hence every previously-resolved key is absent afterwards, and a
repeat lookup for a random month (9 or 10) performs a fresh random draw,
returning the participant the random oracle selects. -/
theorem c8_reset_empties_state (s : Store) (k : String) (m year draw : Nat)
    (hm : m = 9 ∨ m = 10) :
    reset s = { mem := emptyData, disk := emptyData } ∧
    dictLookup (reset s).mem.random_tours k = none ∧
    (get_speaker_for_month (reset s) m year draw).1 = randomChoice draw := by
  refine ⟨rfl, rfl, ?_⟩
  rcases hm with hm | hm <;> subst hm <;> rfl

/-- Witness for C8: resetting the state that had resolved "2025-9" to "Marc". -/
theorem c8_reset_empties_state_witness :
    reset marcStore = { mem := emptyData, disk := emptyData } ∧
    dictLookup (reset marcStore).mem.random_tours "2025-9" = none ∧
    (get_speaker_for_month (reset marcStore) 9 2025 4).1 = randomChoice 4 :=
  c8_reset_empties_state marcStore "2025-9" 9 2025 4 (Or.inl rfl)

/-- C9 counterexample: for current month 3 the planning window is [11,12,1,2,3],
the next month (4) is not in it, and no entry carries the next-month marker —
so the list does not contain exactly one flagged entry. -/
theorem c9_next_marker_counterexample :
    ¬ ((get_planning initStore 3 2025 (fun _ => 0)).2.1.filter
        (fun e => e.marker != "")).length = 1 := by decide

/-- C9 amended: for every current month in [1,12] other than 3 and 8, the
planning list contains exactly one entry carrying the next-month marker, and
any marked entry is the one for the next calendar month (wrapping December to
January); for current months 3 and 8 the next month lies outside the displayed
window and no entry is marked. -/
theorem c9_next_marker_amended (s : Store) (year cm : Nat) (draws : Nat → Nat)
    (h1 : 1 ≤ cm) (h2 : cm ≤ 12) :
    ((get_planning s cm year draws).2.1.filter (fun e => e.marker != "")).length
      = (if cm = 3 ∨ cm = 8 then 0 else 1) ∧
    (∀ e ∈ (get_planning s cm year draws).2.1, e.marker != "" →
        e.mois_name = (dictLookup MOIS_FR (next_month cm)).getD "?") := by
  interval_cases cm <;>
    refine ⟨rfl, ?_⟩ <;>
    (intro e he
     fin_cases he <;> simp [next_month, dictLookup, MOIS_FR])

/-- Witness for the amended C9 at current month 11 on the empty state. -/
theorem c9_next_marker_amended_witness :
    ((get_planning initStore 11 2025 (fun _ => 0)).2.1.filter
        (fun e => e.marker != "")).length = (if (11 : Nat) = 3 ∨ (11 : Nat) = 8 then 0 else 1) :=
  (c9_next_marker_amended initStore 2025 11 (fun _ => 0) (by decide) (by decide)).1

/-- A successful dict lookup comes from a binding in the list. -/
theorem dictLookup_mem {α β : Type} [DecidableEq α] (l : List (α × β)) (k : α) (v : β)
    (h : dictLookup l k = some v) : (k, v) ∈ l := by
  induction l with
  | nil => simp [dictLookup] at h
  | cons hd tl ih =>
    obtain ⟨k2, v2⟩ := hd
    by_cases hk : k2 = k
    · subst hk
      simp [dictLookup] at h
      subst h
      exact List.mem_cons_self _ _
    · simp only [dictLookup, hk, if_false] at h
      exact List.mem_cons_of_mem _ (ih h)

/-- `get_speaker_for_month` keeps every `random_tours` value a participant. -/
theorem gsm_preserves_valid (s : Store) (m year draw : Nat) (hv : validStore s) :
    validStore (get_speaker_for_month s m year draw).2 := by
  cases h1 : dictLookup TOUR_1 m with
  | some v => simp only [get_speaker_for_month, h1]; exact hv
  | none =>
    cases h2 : dictLookup TOUR_2 m with
    | some v => simp only [get_speaker_for_month, h1, h2]; exact hv
    | none =>
      cases h3 : dictLookup s.mem.random_tours (mkKey year m) with
      | some v => simp only [get_speaker_for_month, h1, h2, h3]; exact hv
      | none =>
        have hnew : validData
            { s.mem with random_tours :=
                s.mem.random_tours ++ [(mkKey year m, randomChoice draw)] } := by
          intro kv hkv
          rcases List.mem_append.mp hkv with hkv | hkv
          · exact hv.1 kv hkv
          · rcases List.mem_singleton.mp hkv with rfl
            exact randomChoice_mem draw
        simp only [get_speaker_for_month, h1, h2, h3, save_data]
        exact ⟨hnew, hnew⟩

/-- Under the invariant, `get_speaker_for_month` always returns a participant. -/
theorem gsm_result_mem (s : Store) (m year draw : Nat) (hv : validStore s) :
    (get_speaker_for_month s m year draw).1 ∈ PARTICIPANTS := by
  cases h1 : dictLookup TOUR_1 m with
  | some v =>
    simp only [get_speaker_for_month, h1]
    have hh : (∀ kv ∈ TOUR_1, kv.2 ∈ PARTICIPANTS) := by decide
    exact hh (m, v) (dictLookup_mem TOUR_1 m v h1)
  | none =>
    cases h2 : dictLookup TOUR_2 m with
    | some v =>
      simp only [get_speaker_for_month, h1, h2]
      have hh : (∀ kv ∈ TOUR_2, kv.2 ∈ PARTICIPANTS) := by decide
      exact hh (m, v) (dictLookup_mem TOUR_2 m v h2)
    | none =>
      cases h3 : dictLookup s.mem.random_tours (mkKey year m) with
      | some v =>
        simp only [get_speaker_for_month, h1, h2, h3]
        exact hv.1 (mkKey year m, v) (dictLookup_mem _ _ v h3)
      | none =>
        simp only [get_speaker_for_month, h1, h2, h3]
        exact randomChoice_mem draw

/-- The planning fold keeps the participant invariant. -/
theorem planning_foldl_valid (months : List Nat) (td : Option (List (Nat × String)))
    (cm year : Nat) (draws : Nat → Nat) (acc : List PlanEntry × Store)
    (hv : validStore acc.2) :
    validStore ((months.foldl (planning_step td cm year draws) acc)).2 := by
  induction months generalizing acc with
  | nil => exact hv
  | cons m rest ih =>
    apply ih
    cases td with
    | some d => exact hv
    | none => exact gsm_preserves_valid acc.2 m year (draws m) hv

/-- C10: the participant invariant: when every stored `random_tours` value is
one of the five participants, this is preserved by `get_speaker_for_month`,
`get_planning` and `reset`, `get_speaker_for_month` returns a member of the
five-participant set for every month in [1,12], and the values of both fixed
tables also lie in that set. -/
theorem c10_participant_invariant (s : Store) (m year draw cm : Nat) (draws : Nat → Nat)
    (hv : validStore s) (hm : 1 ≤ m ∧ m ≤ 12) :
    validStore (get_speaker_for_month s m year draw).2 ∧
    validStore (get_planning s cm year draws).2.2 ∧
    validStore (reset s) ∧
    (get_speaker_for_month s m year draw).1 ∈ PARTICIPANTS ∧
    (∀ kv ∈ TOUR_1, kv.2 ∈ PARTICIPANTS) ∧
    (∀ kv ∈ TOUR_2, kv.2 ∈ PARTICIPANTS) := by
  refine ⟨gsm_preserves_valid s m year draw hv, ?_, ?_,
    gsm_result_mem s m year draw hv, by decide, by decide⟩
  · unfold get_planning
    split <;> exact planning_foldl_valid _ _ _ _ _ _ hv
  · exact ⟨fun kv hkv => absurd hkv (List.not_mem_nil kv),
      fun kv hkv => absurd hkv (List.not_mem_nil kv)⟩

/-- Witness for C10 on the state mapping "2025-9" to "Marc", at month 9. -/
theorem c10_participant_invariant_witness :
    (get_speaker_for_month marcStore 9 2025 0).1 ∈ PARTICIPANTS :=
  (c10_participant_invariant marcStore 9 2025 0 9 (fun _ => 0)
    (by unfold validStore validData marcStore; decide) (by decide)).2.2.2.1

end DevMeetingBot
